import Mathlib

/-!
Verification of the waverunner execution engine (Python) against its
natural-language specification.

The development shallowly embeds the relevant parts of the source:

* `src/waverunner/models.py` — the enums, `ResurrectionRecord`, `Task` (with
  `start` / `block` / `complete`), `Board`, and `Board.from_dict` together with
  the document types it reads.
* `src/waverunner/agent.py` — `calculate_waves`, `get_ready_tasks`, the
  admission slice of `run_sprint`, `detect_infinite_loop`,
  `find_last_heartbeat_age`, the deterministic part of `reaper_monitor_task`,
  the kill/complete/fail handling of `execute_and_complete`, the iteration
  reset of `run_sprint_loop`, and the loop-exit check of `run_sprint`.
* `src/waverunner/providers.py` — the exit-code handling at the end of
  `ClaudeCodeProvider.run`.

Modelling conventions: timestamps are integers (seconds); Python `set`s of ids
are lists used only through membership; LLM calls (resurrection negotiation,
re-estimation, the reaper's deliberative fallback) are oracle parameters
carrying the call's parsed result; floating-point CPU percentages are
rationals.  Python string containment (`in`), `.lower()`, `.strip()` and
slicing are embedded as executable functions below.
-/

namespace Waverunner

/-- Python substring helper: does `l` start with `sub` (character lists)? -/
def startsWithL : List Char → List Char → Bool
  | [], _ => true
  | _ :: _, [] => false
  | a :: as, b :: bs => a == b && startsWithL as bs

/-- Python substring helper: does `sub` occur contiguously inside `l`? -/
def infixL (sub : List Char) : List Char → Bool
  | [] => startsWithL sub []
  | c :: rest => startsWithL sub (c :: rest) || infixL sub rest

/-- Embedding of the Python string operator `sub in s`. -/
def strContains (s sub : String) : Bool :=
  infixL sub.data s.data

/-- Embedding of Python `s.lower()` (the engine only lowers ASCII text). -/
def strLower (s : String) : String :=
  ⟨s.data.map Char.toLower⟩

/-- Whitespace for Python `str.strip()` (the engine only strips ASCII). -/
def wsChar (c : Char) : Bool :=
  c == ' ' || c == '\t' || c == '\n' || c == '\r'

/-- Embedding of Python `s.strip()`. -/
def strTrim (s : String) : String :=
  ⟨((s.data.dropWhile wsChar).reverse.dropWhile wsChar).reverse⟩

/-- Embedding of Python `s[:n]` (first n characters). -/
def strTake (s : String) (n : Nat) : String :=
  ⟨s.data.take n⟩

/-- Embedding of Python `s.replace(pat, rep)` on character lists (all
occurrences, scanning left to right); an empty pattern returns the input
unchanged. -/
def replaceAllL (pat rep : List Char) : List Char → List Char
  | [] => []
  | c :: rest =>
      if pat ≠ [] ∧ startsWithL pat (c :: rest) = true then
        rep ++ replaceAllL pat rep (rest.drop (pat.length - 1))
      else c :: replaceAllL pat rep rest
termination_by l => l.length
decreasing_by
  · simp only [List.length_cons]
    have := List.length_drop (pat.length - 1) rest
    omega
  · simp only [List.length_cons]
    omega

/-- Embedding of Python `s.replace(pat, rep)`. -/
def strReplace (s pat rep : String) : String :=
  ⟨replaceAllL pat.data rep.data s.data⟩

/-- Mode enum from models.py. -/
inductive Mode where
  | sprint
  | kanban
deriving DecidableEq, Repr

/-- TaskStatus enum from models.py. -/
inductive TaskStatus where
  | backlog
  | planned
  | ready
  | in_progress
  | in_review
  | blocked
  | completed
  | skipped
deriving DecidableEq, Repr

/-- Complexity enum from models.py. -/
inductive Complexity where
  | trivial
  | small
  | medium
  | large
  | unknown
deriving DecidableEq, Repr

/-- Priority enum from models.py. -/
inductive Priority where
  | critical
  | high
  | medium
  | low
deriving DecidableEq, Repr

/-- TaskType enum from models.py. -/
inductive TaskType where
  | implementation
  | spike
deriving DecidableEq, Repr

/-- ResurrectionRecord dataclass from models.py (killed_at is a timestamp). -/
structure ResurrectionRecord where
  attempt_number : Nat
  persona : String
  kill_reason : String
  partial_notes : String
  killed_at : Int
  elapsed_seconds : Int
deriving DecidableEq, Repr

/-- Task dataclass from models.py.  Timestamps are integers; optional
timestamps are `Option Int` (Python `None`). -/
structure Task where
  id : String
  title : String
  description : String
  complexity : Complexity := .unknown
  priority : Priority := .medium
  status : TaskStatus := .backlog
  task_type : TaskType := .implementation
  acceptance_criteria : List String := []
  artifacts : List String := []
  dependencies : List String := []
  blocked_reason : String := ""
  notes : String := ""
  created_at : Int := 0
  started_at : Option Int := none
  completed_at : Option Int := none
  actual_complexity : Option Complexity := none
  cycle_time_seconds : Option Int := none
  assigned_to : String := ""
  reaper_kill_count : Nat := 0
  resurrection_history : List ResurrectionRecord := []
deriving DecidableEq, Repr

/-- Task.start from models.py. -/
def Task.start (t : Task) (now : Int) : Task :=
  { t with status := .in_progress, started_at := some now }

/-- Task.block from models.py. -/
def Task.block (t : Task) (reason : String) : Task :=
  { t with status := .blocked, blocked_reason := reason }

/-- Python truthiness of an optional list argument (None and [] are falsy). -/
def pyTruthyList (xs : Option (List String)) : Bool :=
  match xs with
  | some (_ :: _) => true
  | _ => false

/-- Task.complete from models.py: marks Completed, stamps completed_at,
overwrites artifacts only when the argument is truthy, sets
actual_complexity only when given, and computes cycle time when started_at
is set. -/
def Task.complete (t : Task) (artifacts : Option (List String))
    (actual_complexity : Option Complexity) (now : Int) : Task :=
  let t1 := { t with status := TaskStatus.completed, completed_at := some now }
  let t2 :=
    match artifacts with
    | some (a :: rest) => { t1 with artifacts := a :: rest }
    | _ => t1
  let t3 :=
    match actual_complexity with
    | some c => { t2 with actual_complexity := some c }
    | none => t2
  match t.started_at with
  | some s => { t3 with cycle_time_seconds := some (now - s) }
  | none => t3

/-- Dependency test of calculate_waves (agent.py line 77): all of the task's
dependency ids are in the completed set. -/
def depsMet (completed_ids : List String) (t : Task) : Bool :=
  t.dependencies.all (fun dep => completed_ids.contains dep)

/-- Python `list.remove` (agent.py line 87): deletes the first occurrence. -/
def removeFirst : List Task → Task → List Task
  | [], _ => []
  | x :: xs, t => if x = t then xs else x :: removeFirst xs t

/-- Embedding of the while-loop of calculate_waves (agent.py lines 74-87):
returns the list of emitted waves together with the remaining tasks at loop
exit.  Each pass selects every remaining task whose dependencies are all
completed; an empty pass ends the loop. -/
def wavesAux (completed_ids : List String) (remaining : List Task) :
    List (List Task) × List Task :=
  let wave := remaining.filter (depsMet completed_ids)
  if h : wave = [] then ([], remaining)
  else
    let next := wavesAux (completed_ids ++ wave.map Task.id)
      (List.foldl removeFirst remaining wave)
    (wave :: next.1, next.2)
termination_by remaining.length
decreasing_by
  have rf_le : ∀ (l : List Task) (x : Task), (removeFirst l x).length ≤ l.length := by
    intro l x
    induction l with
    | nil => simp [removeFirst]
    | cons a l ih =>
        by_cases hax : a = x
        · simp [removeFirst, hax]
        · simp only [removeFirst, if_neg hax, List.length_cons]
          exact Nat.succ_le_succ ih
  have foldl_le : ∀ (ws l : List Task),
      (List.foldl removeFirst l ws).length ≤ l.length := by
    intro ws
    induction ws with
    | nil => intro l; exact Nat.le_refl _
    | cons w ws ih =>
        intro l
        simp only [List.foldl_cons]
        exact Nat.le_trans (ih _) (rf_le l w)
  have rf_lt : ∀ (l : List Task) (x : Task), x ∈ l →
      (removeFirst l x).length < l.length := by
    intro l x
    induction l with
    | nil => intro hx; exact absurd hx (List.not_mem_nil x)
    | cons a l ih =>
        intro hx
        by_cases hax : a = x
        · simp [removeFirst, hax]
        · rcases List.mem_cons.mp hx with h1 | h2
          · exact absurd h1.symm hax
          · simp only [removeFirst, if_neg hax, List.length_cons]
            exact Nat.succ_lt_succ (ih h2)
  cases hw : List.filter (depsMet completed_ids) remaining with
  | nil => exact absurd hw h
  | cons w ws =>
      have hwmem : w ∈ remaining :=
        List.mem_of_mem_filter (hw ▸ List.mem_cons_self w ws)
      calc (List.foldl removeFirst remaining (w :: ws)).length
          = (List.foldl removeFirst (removeFirst remaining w) ws).length := by
            simp [List.foldl_cons]
        _ ≤ (removeFirst remaining w).length := foldl_le ws _
        _ < remaining.length := rf_lt remaining w hwmem

/-- calculate_waves from agent.py lines 61-89 (already_completed defaults to
the empty set at the call sites that omit it). -/
def calculate_waves (tasks : List Task) (already_completed : List String) :
    List (List Task) :=
  (wavesAux already_completed tasks).1

/-- The `remaining` list at exit of the calculate_waves loop: tasks with
cyclic or dangling dependencies, which the loop never emits. -/
def wavesLeftover (tasks : List Task) (already_completed : List String) :
    List Task :=
  (wavesAux already_completed tasks).2

/-- PersonaAccountability dataclass from models.py. -/
structure PersonaAccountability where
  persona_name : String
  estimates_given : Nat := 0
  estimates_accurate : Nat := 0
  estimates_low : Nat := 0
  estimates_high : Nat := 0
  risks_raised : Nat := 0
  risks_materialized : Nat := 0
  recommendations_made : Nat := 0
  recommendations_adopted : Nat := 0
  spikes_proposed : Nat := 0
  spikes_found_issues : Nat := 0
deriving DecidableEq, Repr

/-- Decision dataclass from models.py. -/
structure Decision where
  topic : String
  consensus : Bool
  decision : String
  reasoning : String
  perspectives : List String := []
  dissenting : List String := []
  decided_by : String := ""
deriving DecidableEq, Repr

/-- SprintConfig dataclass from models.py. -/
structure SprintConfig where
  scope_locked : Bool := false
  scope_changes : List String := []
  velocity_baseline : Option Int := none
deriving DecidableEq, Repr

/-- KanbanConfig dataclass from models.py. -/
structure KanbanConfig where
  wip_limit : Nat := 2
deriving DecidableEq, Repr

/-- Pass-through JSON payload (cost_data field): the engine stores and loads
it without interpreting it, so an association list stands in for it. -/
abbrev CostData := List (String × Int)

/-- Board dataclass from models.py. -/
structure Board where
  id : String
  goal : String
  context : String
  mode : Mode := .sprint
  tasks : List Task := []
  created_at : Int := 0
  started_at : Option Int := none
  completed_at : Option Int := none
  risks : List String := []
  assumptions : List String := []
  out_of_scope : List String := []
  definition_of_done : List String := []
  planning_discussion : String := ""
  decisions : List Decision := []
  planning_mode : String := "collaborative"
  sprint_config : SprintConfig := {}
  kanban_config : KanbanConfig := {}
  retro_notes : String := ""
  persona_accountability : List (String × PersonaAccountability) := []
  mcps : List String := []
  task_timeout : Option Int := none
  use_default_timeouts : Bool := false
  cost_data : CostData := []
  git_auto_commit : Bool := false
deriving DecidableEq, Repr

/-- get_ready_tasks from agent.py lines 2035-2046: tasks in Planned, Ready or
Backlog, not shadowed by an in-progress task of the same id, with every
dependency completed. -/
def get_ready_tasks (board : Board) : List Task :=
  let completed_ids :=
    (board.tasks.filter (fun t => t.status == TaskStatus.completed)).map Task.id
  let in_progress_ids :=
    (board.tasks.filter (fun t => t.status == TaskStatus.in_progress)).map Task.id
  board.tasks.filter (fun t =>
    (t.status == TaskStatus.planned || t.status == TaskStatus.ready
        || t.status == TaskStatus.backlog)
      && !(in_progress_ids.contains t.id)
      && t.dependencies.all (fun dep => completed_ids.contains dep))

/-- The admission slice of run_sprint (agent.py lines 2300-2311): ready tasks
not already running, cut to the free slots, in the order get_ready_tasks
returned them (no sorting happens). -/
def admit_tasks (board : Board) (running_ids : List String) (slots : Nat) :
    List Task :=
  ((get_ready_tasks board).filter (fun t => !(running_ids.contains t.id))).take slots

/-- The message prefix execute_and_complete tests for (agent.py line 2172). -/
def reaperKillMarker : String := "Task killed by Reaper"

/-- Exit-code handling at the end of ClaudeCodeProvider.run (providers.py
lines 232-270): exit -9 and other negative codes raise a RuntimeError; every
other exit (including code 1, which only prints diagnostics) returns the
captured output. -/
def providerExitResult (returncode : Int) (output : String) :
    Except String String :=
  if returncode ≠ 0 then
    if returncode = -9 then
      Except.error "Claude process killed by system (exit -9) - likely out of memory"
    else if returncode < 0 then
      Except.error ("Claude process killed by signal " ++ toString (-returncode))
    else Except.ok output
  else Except.ok output

/-- Machine-level outcome of one provider run: the subprocess exited with a
code and merged output, or the Reaper killed it (providers.py line 147). -/
inductive RunResult where
  | exited (returncode : Int) (output : String)
  | reaperKilled (reason : String)
deriving DecidableEq, Repr

/-- What ClaudeCodeProvider.run delivers to its caller for each outcome:
normal exits go through the exit-code handling; a Reaper kill raises
RuntimeError("Task killed by Reaper: reason"). -/
def providerRunResult : RunResult → Except String String
  | .exited code output => providerExitResult code output
  | .reaperKilled reason => Except.error (reaperKillMarker ++ ": " ++ reason)

/-- Completion-metadata recovery of execute_task (agent.py lines 1944-1965):
`parsed` is the oracle result of extract_yaml_from_response — some triple of
(artifacts, actual_complexity, notes) on success, none when parsing raised. -/
def taskMetadata (is_spike : Bool)
    (parsed : Option (List String × Complexity × String)) (response : String) :
    List String × Option Complexity × String :=
  match parsed with
  | some (arts, actual, notes) => (arts, some actual, notes)
  | none =>
      if is_spike then ([], some Complexity.trivial, strTrim response)
      else ([], none, "Completed (could not parse completion metadata)")

/-- Keywords tested on the lowered kill message (agent.py line 2234). -/
def silenceWords : List String := ["silence", "hung", "no output", "unresponsive"]

/-- is_silence_timeout from agent.py lines 2233-2234. -/
def is_silence_timeout (errorMsg : String) : Bool :=
  silenceWords.any (fun w => strContains (strLower errorMsg) w)

/-- should_reestimate from agent.py lines 2239-2242. -/
def should_reestimate (isSilence : Bool) (kill_count : Nat) : Bool :=
  (!isSilence && decide (2 ≤ kill_count)) || (isSilence && decide (3 ≤ kill_count))

/-- The ResurrectionRecord built for a kill (agent.py lines 2180-2194). -/
def corpseOf (t : Task) (e : String) (kill_count : Nat) (now : Int) :
    ResurrectionRecord :=
  { attempt_number := kill_count
  , persona := if t.assigned_to = "" then "Unknown" else t.assigned_to
  , kill_reason := e
  , partial_notes := if t.notes = "" then "(No output before death)" else strTake t.notes 500
  , killed_at := now
  , elapsed_seconds :=
      match t.started_at with
      | some s => now - s
      | none => 0 }

/-- Observable effect of one execute_and_complete call: the updated task,
whether the board was saved during handling, and whether resurrection
negotiation and re-estimation were invoked. -/
structure ExecEffects where
  task : Task
  saved : Bool
  negotiated : Bool
  reestimated : Bool
deriving DecidableEq, Repr

/-- The notes written before a retry (agent.py lines 2208-2214): the agreed
adjustment, or the fallback text when negotiation raised. -/
def negotiationNotes : Except String String → String
  | .ok adj => "⚰ RESURRECTION ADJUSTMENT:\n" ++ adj ++ "\n\n"
  | .error msg =>
      "⚰ RESURRECTION: Could not agree on adjustment (" ++ msg
        ++ "). Try different approach.\n\n"

/-- Reaper-kill handling of execute_and_complete (agent.py lines 2170-2279).
`negotiation` is the oracle result of negotiate_resurrection (error = the
call raised); `reestimation` is the oracle result of
_run_reestimation_discussion (none = no consensus / parse failure). -/
def reaperKillHandle (t : Task) (e : String)
    (negotiation : Except String String) (reestimation : Option Complexity)
    (now : Int) : ExecEffects :=
  let kill_count := t.reaper_kill_count + 1
  let corpse := corpseOf t e kill_count now
  let t1 := { t with reaper_kill_count := kill_count
                   , resurrection_history := t.resurrection_history ++ [corpse] }
  if 10 ≤ kill_count then
    { task := { t1 with status := TaskStatus.blocked
                      , blocked_reason :=
                          "Reaper killed " ++ toString kill_count ++ "x - needs replan" }
    , saved := true, negotiated := false, reestimated := false }
  else
    let t2 := { t1 with notes := negotiationNotes negotiation
                      , status := TaskStatus.backlog
                      , started_at := none }
    if should_reestimate (is_silence_timeout e) kill_count then
      let t3 :=
        match reestimation with
        | some c => if c ≠ t2.complexity then { t2 with complexity := c } else t2
        | none => t2
      { task := t3, saved := true, negotiated := true, reestimated := true }
    else
      { task := t2, saved := true, negotiated := true, reestimated := false }

/-- execute_and_complete from agent.py lines 2109-2295 at the task level: on
a successful provider return the task is completed and the board saved; on a
RuntimeError carrying the Reaper marker the kill handling runs; on any other
exception the task is left untouched and nothing is saved. -/
def execute_and_complete (t : Task) (run : RunResult)
    (parsed : Option (List String × Complexity × String))
    (negotiation : Except String String) (reestimation : Option Complexity)
    (now : Int) : ExecEffects :=
  match providerRunResult run with
  | .ok response =>
      let md := taskMetadata (t.task_type = TaskType.spike) parsed response
      let t1 := Task.complete t (some md.1) md.2.1 now
      let t2 := if md.2.2 ≠ "" then { t1 with notes := md.2.2 } else t1
      { task := t2, saved := true, negotiated := false, reestimated := false }
  | .error e =>
      if strContains e reaperKillMarker then
        reaperKillHandle t e negotiation reestimation now
      else
        { task := t, saved := false, negotiated := false, reestimated := false }

/-- The heartbeat token the engine actually scans for (agent.py line 152 and
prompts.py lines 101, 215). -/
def heartbeatToken : String := "[WAVERUNNER_HEARTBEAT]"

/-- Result of get_process_status (agent.py lines 92-113); `none` models a
run without a process id. -/
structure ProcProbe where
  cpu : Rat
  state : String
  conns : Nat
deriving DecidableEq, Repr

/-- Python `l[-n:]`. -/
def lastN (l : List String) (n : Nat) : List String :=
  l.drop (l.length - n)

/-- detect_infinite_loop from agent.py lines 122-140. -/
def detect_infinite_loop (recent_output : List String) (threshold : Nat := 30) :
    Bool :=
  if recent_output = [] ∨ recent_output.length < threshold then false
  else
    let check_window := min recent_output.length 50
    let recent_lines := lastN recent_output check_window
    let max_count := (recent_lines.map (fun l => recent_lines.count l)).foldr max 0
    decide (threshold ≤ max_count)

/-- Distinct lines in first-occurrence order (Counter insertion order). -/
def dedupKeepFirst (l : List String) : List String :=
  l.foldl (fun acc x => if acc.contains x then acc else acc ++ [x]) []

/-- Counter(...).most_common(1) on the 50-line window (agent.py lines
188-190): the line with the highest count, earliest first occurrence winning
ties. -/
def most_common_line (window : List String) : String :=
  match dedupKeepFirst window with
  | [] => ""
  | c :: cs =>
      cs.foldl (fun best x => if window.count best < window.count x then x else best) c

/-- The kill reason built at agent.py line 191. -/
def loopKillReason (recent : List String) : String :=
  let apos := String.singleton (Char.ofNat 39)
  "Infinite loop detected: " ++ apos
    ++ strTake (strTrim (most_common_line (lastN recent 50))) 50 ++ "..." ++ apos
    ++ " repeating excessively"

/-- Scan from the last line backwards for the heartbeat token (agent.py
lines 151-155): index from the end, or -1 when absent. -/
def hbSearch : List String → Int
  | [] => -1
  | l :: ls =>
      if strContains l heartbeatToken then 0
      else
        let r := hbSearch ls
        if r < 0 then -1 else r + 1

/-- find_last_heartbeat_age from agent.py lines 143-155. -/
def find_last_heartbeat_age (recent_output : List String) : Int :=
  match recent_output with
  | [] => -1
  | _ => hbSearch recent_output.reverse

/-- Parsing of the deliberative LLM verdict (agent.py lines 357-361);
`response` is the oracle text of the reaper LLM call. -/
def reaperLLMVerdict (response : String) : String × String :=
  if strContains response "KILL" then
    ("KILL", strTrim (strReplace (strReplace response "KILL:" "") "KILL" ""))
  else ("CONTINUE", "")

/-- Tail of reaper_monitor_task (agent.py lines 243-361): below 15 min of
silence continue; otherwise any CPU use or open connection continues, else
the deliberative LLM verdict decides. -/
def reaperTail (silence_seconds : Int) (probe : Option ProcProbe)
    (llm_response : String) : String × String :=
  if silence_seconds < 900 then ("CONTINUE", "")
  else
    match probe with
    | some pr =>
        if 0 < pr.cpu then ("CONTINUE", "")
        else if 0 < pr.conns then ("CONTINUE", "")
        else reaperLLMVerdict llm_response
    | none => reaperLLMVerdict llm_response

/-- Heartbeat check of reaper_monitor_task (agent.py lines 211-229). -/
def reaperHeartbeatStep (silence_seconds : Int) (recent_output : List String)
    (probe : Option ProcProbe) (llm_response : String) : String × String :=
  if recent_output ≠ [] ∧ 900 < silence_seconds then
    let age := find_last_heartbeat_age recent_output
    if age = 0 ∧ silence_seconds < 1800 then ("CONTINUE", "")
    else if age < 0 then
      ("KILL", "No heartbeat found and >15 minutes silence (agent appears hung)")
    else if 0 < age then
      ("KILL", "Last heartbeat was " ++ toString age
        ++ " lines ago, >15 minutes silence (agent appears hung)")
    else if 1800 ≤ silence_seconds then
      ("KILL", "Last heartbeat was " ++ toString silence_seconds
        ++ "s ago (>30min) - appears hung")
    else reaperTail silence_seconds probe llm_response
  else reaperTail silence_seconds probe llm_response

/-- Process-status check of reaper_monitor_task (agent.py lines 193-209).
The probe samples of the check and of the tail are modelled as one value. -/
def reaperProcessStep (silence_seconds : Int) (recent_output : List String)
    (probe : Option ProcProbe) (llm_response : String) : String × String :=
  match probe with
  | some pr =>
      if 900 < silence_seconds then
        if 0 < pr.conns then ("CONTINUE", "")
        else if 50 < pr.cpu then ("CONTINUE", "")
        else if pr.state = "zombie" ∨ pr.state = "disk-sleep" then
          ("KILL", "Process in bad state: " ++ pr.state ++ " (unrecoverable)")
        else reaperHeartbeatStep silence_seconds recent_output probe llm_response
      else reaperHeartbeatStep silence_seconds recent_output probe llm_response
  | none => reaperHeartbeatStep silence_seconds recent_output probe llm_response

/-- reaper_monitor_task from agent.py lines 158-361 (the task and persona
arguments only feed the LLM prompt and are omitted; `llm_response` is the
oracle text of that call). -/
def reaper_monitor_task (silence_seconds elapsed_seconds : Int)
    (recent_output : List String) (probe : Option ProcProbe)
    (llm_response : String) : String × String :=
  if recent_output = [] then
    if elapsed_seconds < 1800 then ("CONTINUE", "")
    else reaperProcessStep silence_seconds recent_output probe llm_response
  else
    if elapsed_seconds < 60 ∧ recent_output.length < 3 then ("CONTINUE", "")
    else if detect_infinite_loop recent_output then
      ("KILL", loopKillReason recent_output)
    else reaperProcessStep silence_seconds recent_output probe llm_response

/-- The iteration reset of run_sprint_loop (agent.py lines 2766-2769): every
task whose status is not Completed and not Skipped gets status Backlog; no
other field is touched. -/
def reset_tasks_for_new_sprint (tasks : List Task) : List Task :=
  tasks.map (fun t =>
    if t.status ≠ TaskStatus.completed ∧ t.status ≠ TaskStatus.skipped then
      { t with status := TaskStatus.backlog }
    else t)

/-- Outcome of the run_sprint scheduling loop body when no futures are
pending (agent.py lines 2351-2388). -/
inductive SprintLoopDecision where
  | finishedAll
  | finishedBlocked
  | finishedCircular
  | keepLooping
deriving DecidableEq, Repr

/-- The exit check of run_sprint (agent.py lines 2351-2388): with no pending
futures, done when nothing remains; with no ready task, stop when tasks are
blocked and none are running or retrying, keep looping when some are, and
otherwise report a circular dependency. -/
def sprint_loop_check (board : Board) (pendingCount : Nat) : SprintLoopDecision :=
  if pendingCount = 0 then
    let remaining := board.tasks.filter (fun t =>
      !(t.status == TaskStatus.completed || t.status == TaskStatus.skipped))
    if remaining = [] then .finishedAll
    else if get_ready_tasks board = [] then
      let blocked := board.tasks.filter (fun t => t.status == TaskStatus.blocked)
      let backlog := board.tasks.filter (fun t => t.status == TaskStatus.backlog)
      let in_progress := board.tasks.filter (fun t => t.status == TaskStatus.in_progress)
      if blocked ≠ [] ∧ in_progress = [] ∧ backlog = [] then .finishedBlocked
      else if backlog ≠ [] ∨ in_progress ≠ [] then .keepLooping
      else .finishedCircular
    else .keepLooping
  else .keepLooping

/-- The task-mutating operations the engine performs, with LLM results as
oracle parameters: Task.start / Task.block / Task.complete from models.py,
one execute_and_complete round, and the iteration reset of run_sprint_loop. -/
inductive TaskOp where
  | startOp (now : Int)
  | blockOp (reason : String)
  | completeOp (artifacts : Option (List String)) (actual : Option Complexity) (now : Int)
  | execOp (run : RunResult) (parsed : Option (List String × Complexity × String))
      (negotiation : Except String String) (reestimation : Option Complexity) (now : Int)
  | iterationResetOp

/-- Effect of one engine operation on one task. -/
def applyOp (t : Task) : TaskOp → Task
  | .startOp now => t.start now
  | .blockOp reason => t.block reason
  | .completeOp artifacts actual now => t.complete artifacts actual now
  | .execOp run parsed negotiation reestimation now =>
      (execute_and_complete t run parsed negotiation reestimation now).task
  | .iterationResetOp =>
      if t.status ≠ TaskStatus.completed ∧ t.status ≠ TaskStatus.skipped then
        { t with status := TaskStatus.backlog }
      else t

/-- One scheduler-internal transition of a task during run_sprint: admission
(which requires eligibility, agent.py line 2042) stamps it InProgress, and an
execute_and_complete round applies to a task that was admitted. -/
inductive SprintStep : Task → Task → Prop where
  | start (t : Task) (now : Int)
      (h : t.status = TaskStatus.planned ∨ t.status = TaskStatus.ready
            ∨ t.status = TaskStatus.backlog) :
      SprintStep t (t.start now)
  | exec (t : Task) (run : RunResult)
      (parsed : Option (List String × Complexity × String))
      (negotiation : Except String String) (reestimation : Option Complexity)
      (now : Int) (h : t.status = TaskStatus.in_progress) :
      SprintStep t (execute_and_complete t run parsed negotiation reestimation now).task

/-- Priority rank used by the spec sentence (Critical > High > Medium > Low);
the source only has such an order inside Board.next_task (models.py lines
475-477), which run_sprint never calls. -/
def priorityRank : Priority → Nat
  | .critical => 0
  | .high => 1
  | .medium => 2
  | .low => 3

/-- Stable insertion of a task into a rank-sorted list: earlier tasks stay
before later tasks of the same priority. -/
def insertByRank (x : Task) : List Task → List Task
  | [] => [x]
  | y :: ys =>
      if priorityRank y.priority < priorityRank x.priority then y :: insertByRank x ys
      else x :: y :: ys

/-- Stable sort by priority rank (ties keep insertion order). -/
def sortByPriority (l : List Task) : List Task :=
  l.foldr insertByRank []

/-- Modelled from the spec (for comparison with admit_tasks): admit up to
`slots` ready tasks sorted by priority Critical > High > Medium > Low, with
insertion order breaking ties. -/
def admit_by_priority_spec (board : Board) (running_ids : List String)
    (slots : Nat) : List Task :=
  (sortByPriority
    ((get_ready_tasks board).filter (fun t => !(running_ids.contains t.id)))).take slots

/-- The error text of a provider result (empty for a success). -/
def exceptErrorStr : Except String String → String
  | .error e => e
  | .ok _ => ""

/-- Document shape read by ResurrectionRecord.from_dict (models.py lines
167-176): `none` marks an absent optional key; keys read with `data[...]`
are required fields. -/
structure ResurrectionRecordDoc where
  attempt_number : Nat
  persona : String
  kill_reason : String
  partial_notes : Option String := none
  killed_at : Int
  elapsed_seconds : Option Int := none
deriving DecidableEq, Repr

/-- ResurrectionRecord.from_dict from models.py lines 167-176. -/
def ResurrectionRecord.from_dict (d : ResurrectionRecordDoc) : ResurrectionRecord :=
  { attempt_number := d.attempt_number
  , persona := d.persona
  , kill_reason := d.kill_reason
  , partial_notes := d.partial_notes.getD ""
  , killed_at := d.killed_at
  , elapsed_seconds := d.elapsed_seconds.getD 0 }

/-- Document shape read by Task.from_dict (models.py lines 247-270).  Enum
values arrive already decoded (the Python wraps them in the enum
constructor); `none` marks an absent or null key. -/
structure TaskDoc where
  id : String
  title : String
  description : String
  complexity : Option Complexity := none
  priority : Option Priority := none
  status : Option TaskStatus := none
  task_type : Option TaskType := none
  acceptance_criteria : Option (List String) := none
  artifacts : Option (List String) := none
  dependencies : Option (List String) := none
  blocked_reason : Option String := none
  notes : Option String := none
  assigned_to : Option String := none
  created_at : Option Int := none
  started_at : Option Int := none
  completed_at : Option Int := none
  actual_complexity : Option Complexity := none
  cycle_time_seconds : Option Int := none
  reaper_kill_count : Option Nat := none
  resurrection_history : Option (List ResurrectionRecordDoc) := none
deriving DecidableEq, Repr

/-- Task.from_dict from models.py lines 247-270 (`now` stands for
datetime.now(), the default for a missing created_at). -/
def Task.from_dict (d : TaskDoc) (now : Int) : Task :=
  { id := d.id
  , title := d.title
  , description := d.description
  , complexity := d.complexity.getD Complexity.unknown
  , priority := d.priority.getD Priority.medium
  , status := d.status.getD TaskStatus.backlog
  , task_type := d.task_type.getD TaskType.implementation
  , acceptance_criteria := d.acceptance_criteria.getD []
  , artifacts := d.artifacts.getD []
  , dependencies := d.dependencies.getD []
  , blocked_reason := d.blocked_reason.getD ""
  , notes := d.notes.getD ""
  , created_at := d.created_at.getD now
  , started_at := d.started_at
  , completed_at := d.completed_at
  , actual_complexity := d.actual_complexity
  , cycle_time_seconds := d.cycle_time_seconds
  , assigned_to := d.assigned_to.getD ""
  , reaper_kill_count := d.reaper_kill_count.getD 0
  , resurrection_history :=
      (d.resurrection_history.getD []).map ResurrectionRecord.from_dict }

/-- Document shape read by SprintConfig.from_dict (models.py 287-293). -/
structure SprintConfigDoc where
  scope_locked : Option Bool := none
  scope_changes : Option (List String) := none
  velocity_baseline : Option Int := none
deriving DecidableEq, Repr

/-- SprintConfig.from_dict from models.py lines 287-293. -/
def SprintConfig.from_dict (d : SprintConfigDoc) : SprintConfig :=
  { scope_locked := d.scope_locked.getD false
  , scope_changes := d.scope_changes.getD []
  , velocity_baseline := d.velocity_baseline }

/-- Document shape read by KanbanConfig.from_dict (models.py 306-310). -/
structure KanbanConfigDoc where
  wip_limit : Option Nat := none
deriving DecidableEq, Repr

/-- KanbanConfig.from_dict from models.py lines 306-310. -/
def KanbanConfig.from_dict (d : KanbanConfigDoc) : KanbanConfig :=
  { wip_limit := d.wip_limit.getD 2 }

/-- Document shape read by Decision.from_dict (models.py 134-144). -/
structure DecisionDoc where
  topic : String
  consensus : Bool
  decision : String
  reasoning : String
  perspectives : Option (List String) := none
  dissenting : Option (List String) := none
  decided_by : Option String := none
deriving DecidableEq, Repr

/-- Decision.from_dict from models.py lines 134-144. -/
def Decision.from_dict (d : DecisionDoc) : Decision :=
  { topic := d.topic
  , consensus := d.consensus
  , decision := d.decision
  , reasoning := d.reasoning
  , perspectives := d.perspectives.getD []
  , dissenting := d.dissenting.getD []
  , decided_by := d.decided_by.getD "" }

/-- Document shape read by PersonaAccountability.from_dict (models.py
77-91). -/
structure PersonaAccountabilityDoc where
  persona_name : String
  estimates_given : Option Nat := none
  estimates_accurate : Option Nat := none
  estimates_low : Option Nat := none
  estimates_high : Option Nat := none
  risks_raised : Option Nat := none
  risks_materialized : Option Nat := none
  recommendations_made : Option Nat := none
  recommendations_adopted : Option Nat := none
  spikes_proposed : Option Nat := none
  spikes_found_issues : Option Nat := none
deriving DecidableEq, Repr

/-- PersonaAccountability.from_dict from models.py lines 77-91. -/
def PersonaAccountability.from_dict (d : PersonaAccountabilityDoc) :
    PersonaAccountability :=
  { persona_name := d.persona_name
  , estimates_given := d.estimates_given.getD 0
  , estimates_accurate := d.estimates_accurate.getD 0
  , estimates_low := d.estimates_low.getD 0
  , estimates_high := d.estimates_high.getD 0
  , risks_raised := d.risks_raised.getD 0
  , risks_materialized := d.risks_materialized.getD 0
  , recommendations_made := d.recommendations_made.getD 0
  , recommendations_adopted := d.recommendations_adopted.getD 0
  , spikes_proposed := d.spikes_proposed.getD 0
  , spikes_found_issues := d.spikes_found_issues.getD 0 }

/-- Document shape read by Board.from_dict (models.py lines 532-565).  The
two extra keys validate_cmd and validate_steps model a legacy and a fresh
persisted document; Board.from_dict in the source reads neither. -/
structure BoardDoc where
  id : String
  goal : String
  context : Option String := none
  mode : Option Mode := none
  created_at : Option Int := none
  started_at : Option Int := none
  completed_at : Option Int := none
  risks : Option (List String) := none
  assumptions : Option (List String) := none
  out_of_scope : Option (List String) := none
  definition_of_done : Option (List String) := none
  planning_discussion : Option String := none
  planning_mode : Option String := none
  retro_notes : Option String := none
  mcps : Option (List String) := none
  task_timeout : Option Int := none
  use_default_timeouts : Option Bool := none
  sprint_config : Option SprintConfigDoc := none
  kanban_config : Option KanbanConfigDoc := none
  tasks : Option (List TaskDoc) := none
  decisions : Option (List DecisionDoc) := none
  persona_accountability : Option (List (String × PersonaAccountabilityDoc)) := none
  cost_data : Option CostData := none
  git_auto_commit : Option Bool := none
  validate_cmd : Option String := none
  validate_steps : Option (List String) := none
deriving DecidableEq, Repr

/-- Board.from_dict from models.py lines 532-565; the source never touches
the validate_cmd or validate_steps keys. -/
def Board.from_dict (d : BoardDoc) (now : Int) : Board :=
  let board : Board :=
    { id := d.id
    , goal := d.goal
    , context := d.context.getD ""
    , mode := d.mode.getD Mode.sprint
    , created_at := d.created_at.getD now
    , started_at := d.started_at
    , completed_at := d.completed_at
    , risks := d.risks.getD []
    , assumptions := d.assumptions.getD []
    , out_of_scope := d.out_of_scope.getD []
    , definition_of_done := d.definition_of_done.getD []
    , planning_discussion := d.planning_discussion.getD ""
    , planning_mode := d.planning_mode.getD "collaborative"
    , retro_notes := d.retro_notes.getD ""
    , mcps := d.mcps.getD []
    , task_timeout := d.task_timeout
    , use_default_timeouts := d.use_default_timeouts.getD false }
  let board :=
    match d.sprint_config with
    | some sc => { board with sprint_config := SprintConfig.from_dict sc }
    | none => board
  let board :=
    match d.kanban_config with
    | some kc => { board with kanban_config := KanbanConfig.from_dict kc }
    | none => board
  { board with
      tasks := (d.tasks.getD []).map (fun td => Task.from_dict td now)
    , decisions := (d.decisions.getD []).map Decision.from_dict
    , persona_accountability :=
        (d.persona_accountability.getD []).map
          (fun kv => (kv.1, PersonaAccountability.from_dict kv.2))
    , cost_data := d.cost_data.getD []
    , git_auto_commit := d.git_auto_commit.getD false }

/-- Small task constructor for the concrete check inputs below. -/
def exTask (i : String) (deps : List String) : Task :=
  { id := i, title := i, description := "", dependencies := deps }

/-- The diamond DAG of spec scenario S1: a and b depend on r, j on both. -/
def s1_tasks : List Task :=
  [exTask "r" [], exTask "a" ["r"], exTask "b" ["r"], exTask "j" ["a", "b"]]

/-- An in-progress Implementation task whose subprocess will exit non-zero. -/
def c2_task : Task :=
  { id := "t-exit", title := "impl work", description := ""
  , status := TaskStatus.in_progress, started_at := some 0 }

/-- An in-progress task already killed nine times. -/
def c3_task : Task :=
  { id := "t-nine", title := "hard task", description := ""
  , status := TaskStatus.in_progress, started_at := some 0
  , reaper_kill_count := 9 }

/-- An in-progress task already killed once. -/
def c4_task : Task :=
  { id := "t-once", title := "looping task", description := ""
  , status := TaskStatus.in_progress, started_at := some 0
  , reaper_kill_count := 1 }

/-- A low-priority planned task that comes first in insertion order. -/
def c5_low : Task :=
  { id := "low1", title := "nice to have", description := ""
  , priority := Priority.low, status := TaskStatus.planned }

/-- A critical planned task that comes second in insertion order. -/
def c5_crit : Task :=
  { id := "crit1", title := "blocks everything", description := ""
  , priority := Priority.critical, status := TaskStatus.planned }

/-- A board whose ready tasks (two) exceed one free slot. -/
def c5_board : Board :=
  { id := "b5", goal := "demo", context := "", tasks := [c5_low, c5_crit] }

/-- An in-progress task with a stamped start time, for the iteration reset. -/
def c8_task : Task :=
  { id := "t-reset", title := "unfinished", description := ""
  , status := TaskStatus.in_progress, started_at := some 5 }

/-- An in-progress Implementation task with prior artifacts, whose
completion metadata will fail to parse. -/
def c10_task : Task :=
  { id := "t10", title := "impl", description := ""
  , status := TaskStatus.in_progress, started_at := some 1
  , artifacts := ["src/a.py"] }

/-- A persisted board document carrying no validate key. -/
def c9_base_doc : BoardDoc :=
  { id := "board-1", goal := "ship it", context := some "ctx"
  , created_at := some 100, tasks := some [] }

/-- The same document with a legacy single-string validate_cmd. -/
def c9_legacy_doc : BoardDoc :=
  { c9_base_doc with validate_cmd := some "make test" }

/-- The same document with a fresh validate_steps list. -/
def c9_fresh_doc : BoardDoc :=
  { c9_base_doc with validate_steps := some ["make test"] }

theorem foldl_removeFirst_cons (ws : List Task) (a : Task) (l : List Task)
    (h : ∀ t ∈ ws, t ≠ a) :
    List.foldl removeFirst (a :: l) ws = a :: List.foldl removeFirst l ws := by
  induction ws generalizing l with
  | nil => rfl
  | cons w ws ih =>
      have hwa : w ≠ a := h w (List.mem_cons_self _ _)
      simp only [List.foldl_cons, removeFirst]
      rw [if_neg (fun hh => hwa hh.symm)]
      exact ih _ (fun t ht => h t (List.mem_cons_of_mem _ ht))

/-- Removing (first occurrences of) exactly the elements that satisfy `p`
from a list leaves the elements that do not satisfy `p`.  This is the loop
`for task in wave: remaining.remove(task)` of agent.py lines 85-87. -/
theorem foldl_removeFirst_filter (l : List Task) (p : Task → Bool) :
    List.foldl removeFirst l (l.filter p) = l.filter (fun x => !p x) := by
  induction l with
  | nil => rfl
  | cons a l ih =>
      by_cases hp : p a = true
      · rw [List.filter_cons_of_pos hp]
        simp only [List.foldl_cons]
        rw [show removeFirst (a :: l) a = l from by simp [removeFirst], ih,
          List.filter_cons_of_neg (by simp [hp])]
      · have hpf : p a = false := by simpa using hp
        have hne : ∀ t ∈ l.filter p, t ≠ a := by
          intro t ht hta
          have hpt : p t = true := List.of_mem_filter ht
          rw [hta] at hpt
          exact hp hpt
        rw [List.filter_cons_of_neg hp, foldl_removeFirst_cons _ _ _ hne, ih,
          List.filter_cons_of_pos (by simp [hpf])]

theorem wavesAux_eq_nil (c : List String) (r : List Task)
    (h : r.filter (depsMet c) = []) : wavesAux c r = ([], r) := by
  rw [wavesAux.eq_def]
  simp [h]

theorem wavesAux_eq_cons (c : List String) (r : List Task)
    (h : r.filter (depsMet c) ≠ []) :
    wavesAux c r =
      (r.filter (depsMet c) ::
          (wavesAux (c ++ (r.filter (depsMet c)).map Task.id)
            (r.filter (fun t => !depsMet c t))).1,
        (wavesAux (c ++ (r.filter (depsMet c)).map Task.id)
            (r.filter (fun t => !depsMet c t))).2) := by
  conv_lhs => rw [wavesAux.eq_def]
  simp only [foldl_removeFirst_filter, dif_neg h]

theorem wavesAux_fst_nil (c : List String) (r : List Task)
    (h : r.filter (depsMet c) = []) : (wavesAux c r).1 = [] := by
  rw [wavesAux_eq_nil c r h]

theorem wavesAux_snd_nil (c : List String) (r : List Task)
    (h : r.filter (depsMet c) = []) : (wavesAux c r).2 = r := by
  rw [wavesAux_eq_nil c r h]

theorem wavesAux_fst_cons (c : List String) (r : List Task)
    (h : r.filter (depsMet c) ≠ []) :
    (wavesAux c r).1 =
      r.filter (depsMet c) ::
        (wavesAux (c ++ (r.filter (depsMet c)).map Task.id)
          (r.filter (fun t => !depsMet c t))).1 := by
  rw [wavesAux_eq_cons c r h]

theorem wavesAux_snd_cons (c : List String) (r : List Task)
    (h : r.filter (depsMet c) ≠ []) :
    (wavesAux c r).2 =
      (wavesAux (c ++ (r.filter (depsMet c)).map Task.id)
        (r.filter (fun t => !depsMet c t))).2 := by
  rw [wavesAux_eq_cons c r h]

/-- Every task left over at loop exit was among the input tasks. -/
theorem wavesAux_leftover_subset (c : List String) (r : List Task) :
    ∀ t ∈ (wavesAux c r).2, t ∈ r := by
  induction c, r using wavesAux.induct with
  | case1 c r wave hw =>
      intro t ht
      rw [wavesAux_snd_nil c r hw] at ht
      exact ht
  | case2 c r wave hw ih =>
      have hw' : r.filter (depsMet c) ≠ [] := hw
      have ih' : ∀ t ∈ (wavesAux (c ++ (r.filter (depsMet c)).map Task.id)
          (r.filter (fun t => !depsMet c t))).2,
          t ∈ r.filter (fun t => !depsMet c t) := by
        rw [← foldl_removeFirst_filter]
        exact ih
      intro t ht
      rw [wavesAux_snd_cons c r hw'] at ht
      exact List.mem_of_mem_filter (ih' t ht)

/-- A task left over at loop exit occurs in none of the emitted waves. -/
theorem wavesAux_leftover_disjoint (c : List String) (r : List Task) :
    ∀ t ∈ (wavesAux c r).2, ∀ w ∈ (wavesAux c r).1, t ∉ w := by
  induction c, r using wavesAux.induct with
  | case1 c r wave hw =>
      intro t _ w hwm
      rw [wavesAux_fst_nil c r hw] at hwm
      exact absurd hwm (List.not_mem_nil w)
  | case2 c r wave hw ih =>
      have hw' : r.filter (depsMet c) ≠ [] := hw
      have ih' : ∀ t ∈ (wavesAux (c ++ (r.filter (depsMet c)).map Task.id)
          (r.filter (fun t => !depsMet c t))).2,
          ∀ w ∈ (wavesAux (c ++ (r.filter (depsMet c)).map Task.id)
            (r.filter (fun t => !depsMet c t))).1, t ∉ w := by
        rw [← foldl_removeFirst_filter]
        exact ih
      intro t ht w hwm
      rw [wavesAux_snd_cons c r hw'] at ht
      rw [wavesAux_fst_cons c r hw'] at hwm
      rcases List.mem_cons.mp hwm with rfl | hwm2
      · intro htw
        have hpt : depsMet c t = true := List.of_mem_filter htw
        have htr : t ∈ r.filter (fun x => !depsMet c x) :=
          wavesAux_leftover_subset _ _ t ht
        have hnp := List.of_mem_filter htr
        simp [hpt] at hnp
      · exact ih' t ht w hwm2

/-- C1: calculate_waves repeatedly emits, as the next wave, exactly those
remaining tasks all of whose dependency ids lie in the completed set, then
adds the emitted ids to the completed set and removes the emitted tasks from
remaining, stopping when a pass emits no tasks; tasks still remaining at that
point appear in no wave. -/
theorem c1_wave_computation (tasks : List Task) (completed : List String) :
    (tasks.filter (depsMet completed) = [] →
        calculate_waves tasks completed = [] ∧ wavesLeftover tasks completed = tasks)
  ∧ (tasks.filter (depsMet completed) ≠ [] →
        calculate_waves tasks completed =
          tasks.filter (depsMet completed) ::
            calculate_waves (tasks.filter (fun t => !depsMet completed t))
              (completed ++ (tasks.filter (depsMet completed)).map Task.id)
        ∧ wavesLeftover tasks completed =
            wavesLeftover (tasks.filter (fun t => !depsMet completed t))
              (completed ++ (tasks.filter (depsMet completed)).map Task.id))
  ∧ (∀ t ∈ wavesLeftover tasks completed,
        ∀ w ∈ calculate_waves tasks completed, t ∉ w) := by
  refine ⟨?_, ?_, ?_⟩
  · intro h
    exact ⟨wavesAux_fst_nil _ _ h, wavesAux_snd_nil _ _ h⟩
  · intro h
    exact ⟨wavesAux_fst_cons _ _ h, wavesAux_snd_cons _ _ h⟩
  · intro t ht w hw
    exact wavesAux_leftover_disjoint _ _ t ht w hw

/-- Witness for C1 at the diamond DAG of spec scenario S1. -/
theorem c1_wave_computation_witness :
    s1_tasks.filter (depsMet []) ≠ []
  ∧ calculate_waves s1_tasks [] =
      s1_tasks.filter (depsMet []) ::
        calculate_waves (s1_tasks.filter (fun t => !depsMet [] t))
          ([] ++ (s1_tasks.filter (depsMet [])).map Task.id) :=
  ⟨by decide, ((c1_wave_computation s1_tasks []).2.1 (by decide)).1⟩

theorem string_data_append (s t : String) : (s ++ t).data = s.data ++ t.data := rfl

theorem startsWithL_append_self (l r : List Char) : startsWithL l (l ++ r) = true := by
  induction l with
  | nil => rfl
  | cons a as ih => simp [startsWithL, ih]

theorem startsWithL_append_of (a b c : List Char) (h : startsWithL a b = true) :
    startsWithL a (b ++ c) = true := by
  induction a generalizing b with
  | nil => rfl
  | cons x xs ih =>
      cases b with
      | nil => simp [startsWithL] at h
      | cons y ys =>
          simp [startsWithL] at h ⊢
          exact ⟨h.1, ih ys h.2⟩

theorem infixL_of_startsWith (sub l : List Char) (h : startsWithL sub l = true) :
    infixL sub l = true := by
  cases l with
  | nil => simpa [infixL] using h
  | cons c rest => simp [infixL, h]

/-- A string that begins with `m` (followed by anything) contains `m`. -/
theorem strContains_marker (m mid r : String) :
    strContains (m ++ mid ++ r) m = true := by
  show infixL m.data (m ++ mid ++ r).data = true
  have hd : (m ++ mid ++ r).data = (m.data ++ mid.data) ++ r.data := by
    rw [string_data_append, string_data_append]
  rw [hd]
  exact infixL_of_startsWith _ _
    (startsWithL_append_of _ _ _ (startsWithL_append_self _ _))

/-- Task.complete marks Completed and leaves identity, kill accounting and
the start stamp alone, whatever its arguments. -/
theorem complete_fields (t : Task) (a : Option (List String))
    (c : Option Complexity) (now : Int) :
    (Task.complete t a c now).status = TaskStatus.completed
  ∧ (Task.complete t a c now).reaper_kill_count = t.reaper_kill_count
  ∧ (Task.complete t a c now).resurrection_history = t.resurrection_history
  ∧ (Task.complete t a c now).id = t.id := by
  unfold Task.complete
  rcases a with _ | (_ | ⟨x, xs⟩) <;> rcases c with _ | c <;>
    rcases h : t.started_at with _ | s <;> simp [h]

theorem providerExitResult_pos (code : Int) (output : String) (h : 0 < code) :
    providerExitResult code output = Except.ok output := by
  unfold providerExitResult
  rw [if_pos (by omega : code ≠ 0), if_neg (by omega : ¬code = -9),
    if_neg (by omega : ¬code < 0)]

theorem providerExitResult_neg (code : Int) (output : String) (h : code < 0) :
    ∃ e, providerExitResult code output = Except.error e := by
  unfold providerExitResult
  by_cases h9 : code = -9
  · exact ⟨_, by rw [if_pos (by omega : code ≠ 0), if_pos h9]⟩
  · exact ⟨_, by rw [if_pos (by omega : code ≠ 0), if_neg h9, if_pos h]⟩

/-- A successful provider return marks the task Completed and saves. -/
theorem execute_ok_completed (t : Task) (run : RunResult)
    (parsed : Option (List String × Complexity × String))
    (negotiation : Except String String) (reestimation : Option Complexity)
    (now : Int) (output : String) (h : providerRunResult run = Except.ok output) :
    (execute_and_complete t run parsed negotiation reestimation now).task.status
        = TaskStatus.completed
  ∧ (execute_and_complete t run parsed negotiation reestimation now).saved = true := by
  unfold execute_and_complete
  rw [h]
  constructor
  · simp only []
    split
    · exact (complete_fields t _ _ now).1
    · exact (complete_fields t _ _ now).1
  · rfl

/-- C2 counterexample: an attempt whose subprocess exits with code 1 (a
non-zero, non-kill exit) IS marked Completed, and is never marked Blocked —
the provider returns the captured output for positive exit codes, so the
claim that such a task is never Completed and gets Blocked fails. -/
theorem c2_nonzero_exit_counterexample :
    (execute_and_complete c2_task (RunResult.exited 1 "claude auth error") none
        (Except.error "unused") none 9).task.status = TaskStatus.completed
  ∧ (execute_and_complete c2_task (RunResult.exited 1 "claude auth error") none
        (Except.error "unused") none 9).task.status ≠ TaskStatus.blocked := by
  exact ⟨rfl, by decide⟩

/-- C2 amended: for a subprocess exiting non-zero (not a Reaper kill), a
positive exit code returns the output and the task is marked Completed and
saved; a negative exit code raises, and the task is left untouched — neither
Completed nor Blocked — and nothing is persisted. -/
theorem c2_nonzero_exit_amended (t : Task) (code : Int) (output : String)
    (parsed : Option (List String × Complexity × String))
    (negotiation : Except String String) (reestimation : Option Complexity)
    (now : Int)
    (hnm : strContains (exceptErrorStr (providerExitResult code output))
        reaperKillMarker = false) :
    (0 < code →
        (execute_and_complete t (.exited code output) parsed negotiation reestimation
            now).task.status = TaskStatus.completed
      ∧ (execute_and_complete t (.exited code output) parsed negotiation reestimation
            now).saved = true)
  ∧ (code < 0 →
        execute_and_complete t (.exited code output) parsed negotiation reestimation now
          = { task := t, saved := false, negotiated := false, reestimated := false }) := by
  constructor
  · intro hpos
    exact execute_ok_completed t _ parsed negotiation reestimation now output
      (providerExitResult_pos code output hpos)
  · intro hneg
    obtain ⟨e, he⟩ := providerExitResult_neg code output hneg
    have hnm' : strContains e reaperKillMarker = false := by
      rw [he] at hnm
      exact hnm
    have he2 : providerRunResult (.exited code output) = Except.error e := he
    unfold execute_and_complete
    rw [he2]
    simp [hnm']

/-- Witness for the amended C2 at exit code -9. -/
theorem c2_nonzero_exit_amended_witness :
    ((-9 : Int) < 0)
  ∧ execute_and_complete c2_task (.exited (-9) "killed") none (Except.error "unused")
      none 3 = { task := c2_task, saved := false, negotiated := false
               , reestimated := false } :=
  ⟨by decide,
    (c2_nonzero_exit_amended c2_task (-9) "killed" none (Except.error "unused") none 3
      (by decide)).2 (by decide)⟩

/-- A Reaper kill routes execute_and_complete into the kill handling with
the RuntimeError text as kill reason. -/
theorem execute_reaperKilled_eq (t : Task) (reason : String)
    (parsed : Option (List String × Complexity × String))
    (negotiation : Except String String) (reestimation : Option Complexity)
    (now : Int) :
    execute_and_complete t (.reaperKilled reason) parsed negotiation reestimation now
      = reaperKillHandle t (reaperKillMarker ++ ": " ++ reason) negotiation
          reestimation now := by
  unfold execute_and_complete
  have h : providerRunResult (.reaperKilled reason)
      = Except.error (reaperKillMarker ++ ": " ++ reason) := rfl
  rw [h]
  simp [strContains_marker]

/-- The tenth kill produces exactly the blocked task. -/
theorem reaperKillHandle_at_nine (t : Task) (e : String)
    (negotiation : Except String String) (reestimation : Option Complexity)
    (now : Int) (h9 : t.reaper_kill_count = 9) :
    reaperKillHandle t e negotiation reestimation now
      = { task := { t with
                      reaper_kill_count := 10,
                      resurrection_history :=
                        t.resurrection_history ++ [corpseOf t e 10 now],
                      status := TaskStatus.blocked,
                      blocked_reason := "Reaper killed 10x - needs replan" },
          saved := true, negotiated := false, reestimated := false } := by
  unfold reaperKillHandle
  rw [h9]
  rfl

/-- A blocked task is never returned by get_ready_tasks. -/
theorem blocked_not_ready (board : Board) (u : Task)
    (hu : u.status = TaskStatus.blocked) : u ∉ get_ready_tasks board := by
  intro hmem
  unfold get_ready_tasks at hmem
  have hp := List.of_mem_filter hmem
  simp [hu] at hp

/-- No scheduler-internal transition applies to a blocked task. -/
theorem sprintStep_not_blocked (t t' : Task) (h : SprintStep t t') :
    t.status ≠ TaskStatus.blocked := by
  cases h with
  | start now hst => rcases hst with h1 | h1 | h1 <;> simp [h1]
  | exec run parsed neg re now hip => simp [hip]

/-- Blocked is absorbing for scheduler-internal transitions. -/
theorem blocked_absorbing (u t' : Task) (hu : u.status = TaskStatus.blocked)
    (h : Relation.ReflTransGen SprintStep u t') : t' = u := by
  rcases Relation.ReflTransGen.cases_head h with heq | ⟨v, hstep, _⟩
  · exact heq.symm
  · exact absurd hu (sprintStep_not_blocked _ _ hstep)

/-- C3: when a kill raises the kill count to 10 the task transitions to
Blocked (exactly this once) with a blocked reason containing "10" and the
plan is persisted; a blocked task is never again eligible for admission, no
scheduler-internal transition moves it (so no 11th attempt starts), and once
every task is blocked or terminal the scheduling loop finishes. -/
theorem c3_ten_kill_block (t : Task) (reason : String)
    (parsed : Option (List String × Complexity × String))
    (negotiation : Except String String) (reestimation : Option Complexity)
    (now : Int) (h9 : t.reaper_kill_count = 9) :
    (execute_and_complete t (.reaperKilled reason) parsed negotiation reestimation
        now).task.status = TaskStatus.blocked
  ∧ (execute_and_complete t (.reaperKilled reason) parsed negotiation reestimation
        now).task.reaper_kill_count = 10
  ∧ strContains (execute_and_complete t (.reaperKilled reason) parsed negotiation
        reestimation now).task.blocked_reason "10" = true
  ∧ (execute_and_complete t (.reaperKilled reason) parsed negotiation reestimation
        now).saved = true
  ∧ (∀ board : Board,
        (execute_and_complete t (.reaperKilled reason) parsed negotiation reestimation
          now).task ∉ get_ready_tasks board)
  ∧ (∀ t' : Task,
        Relation.ReflTransGen SprintStep
          (execute_and_complete t (.reaperKilled reason) parsed negotiation
            reestimation now).task t' →
        t' = (execute_and_complete t (.reaperKilled reason) parsed negotiation
            reestimation now).task)
  ∧ (∀ board : Board,
        (execute_and_complete t (.reaperKilled reason) parsed negotiation reestimation
          now).task ∈ board.tasks →
        (∀ u ∈ board.tasks, u.status = TaskStatus.blocked
           ∨ u.status = TaskStatus.completed ∨ u.status = TaskStatus.skipped) →
        sprint_loop_check board 0 = SprintLoopDecision.finishedBlocked) := by
  have hE : execute_and_complete t (.reaperKilled reason) parsed negotiation
      reestimation now
      = { task := { t with
                      reaper_kill_count := 10,
                      resurrection_history :=
                        t.resurrection_history
                          ++ [corpseOf t (reaperKillMarker ++ ": " ++ reason) 10 now],
                      status := TaskStatus.blocked,
                      blocked_reason := "Reaper killed 10x - needs replan" },
          saved := true, negotiated := false, reestimated := false } := by
    rw [execute_reaperKilled_eq]
    exact reaperKillHandle_at_nine t _ negotiation reestimation now h9
  rw [hE]
  refine ⟨rfl, rfl, rfl, rfl, ?_, ?_, ?_⟩
  · intro board
    exact blocked_not_ready board _ rfl
  · intro t' h
    exact blocked_absorbing _ t' rfl h
  · intro board hmem hall
    unfold sprint_loop_check
    rw [if_pos rfl]
    simp only []
    have hrem : board.tasks.filter (fun u =>
        !(u.status == TaskStatus.completed || u.status == TaskStatus.skipped)) ≠ [] := by
      intro hnil
      have hin : _ ∈ board.tasks.filter (fun u =>
          !(u.status == TaskStatus.completed || u.status == TaskStatus.skipped)) :=
        List.mem_filter.mpr ⟨hmem, rfl⟩
      rw [hnil] at hin
      exact absurd hin (List.not_mem_nil _)
    rw [if_neg hrem]
    have hready : get_ready_tasks board = [] := by
      unfold get_ready_tasks
      simp only []
      apply List.filter_eq_nil_iff.mpr
      intro u hu
      rcases hall u hu with h1 | h1 | h1 <;> simp [h1]
    rw [if_pos hready]
    have hb : board.tasks.filter (fun u => u.status == TaskStatus.blocked) ≠ [] := by
      intro hnil
      have hin : _ ∈ board.tasks.filter (fun u => u.status == TaskStatus.blocked) :=
        List.mem_filter.mpr ⟨hmem, rfl⟩
      rw [hnil] at hin
      exact absurd hin (List.not_mem_nil _)
    have hip : board.tasks.filter (fun u => u.status == TaskStatus.in_progress) = [] := by
      apply List.filter_eq_nil_iff.mpr
      intro u hu
      rcases hall u hu with h1 | h1 | h1 <;> simp [h1]
    have hbk : board.tasks.filter (fun u => u.status == TaskStatus.backlog) = [] := by
      apply List.filter_eq_nil_iff.mpr
      intro u hu
      rcases hall u hu with h1 | h1 | h1 <;> simp [h1]
    rw [if_pos ⟨hb, hip, hbk⟩]

/-- Witness for C3: a ninth-time-killed concrete task gets blocked with a
reason containing "10". -/
theorem c3_ten_kill_block_witness :
    c3_task.reaper_kill_count = 9
  ∧ (execute_and_complete c3_task (.reaperKilled "loop detected") none
      (Except.ok "x") none 4).task.status = TaskStatus.blocked
  ∧ strContains (execute_and_complete c3_task (.reaperKilled "loop detected") none
      (Except.ok "x") none 4).task.blocked_reason "10" = true := by
  have h := c3_ten_kill_block c3_task "loop detected" none (Except.ok "x") none 4 rfl
  exact ⟨rfl, h.1, h.2.2.1⟩

/-- Behaviour of the kill handling below ten kills: negotiation always runs,
re-estimation runs exactly when the thresholds fire, the task is reset to
Backlog with started_at cleared and the adjustment written into notes, and
the complexity is updated only from a re-estimation consensus. -/
theorem reaperKillHandle_below_ten (t : Task) (e : String)
    (negotiation : Except String String) (reestimation : Option Complexity)
    (now : Int) (hlt : t.reaper_kill_count + 1 < 10) :
    (reaperKillHandle t e negotiation reestimation now).negotiated = true
  ∧ (reaperKillHandle t e negotiation reestimation now).reestimated
      = should_reestimate (is_silence_timeout e) (t.reaper_kill_count + 1)
  ∧ (reaperKillHandle t e negotiation reestimation now).task.status = TaskStatus.backlog
  ∧ (reaperKillHandle t e negotiation reestimation now).task.started_at = none
  ∧ (reaperKillHandle t e negotiation reestimation now).task.notes
      = negotiationNotes negotiation
  ∧ (reaperKillHandle t e negotiation reestimation now).task.reaper_kill_count
      = t.reaper_kill_count + 1
  ∧ (reaperKillHandle t e negotiation reestimation now).saved = true
  ∧ (should_reestimate (is_silence_timeout e) (t.reaper_kill_count + 1) = true →
      (reaperKillHandle t e negotiation reestimation now).task.complexity
        = reestimation.getD t.complexity)
  ∧ (should_reestimate (is_silence_timeout e) (t.reaper_kill_count + 1) = false →
      (reaperKillHandle t e negotiation reestimation now).task.complexity
        = t.complexity) := by
  have h10 : ¬10 ≤ t.reaper_kill_count + 1 := by omega
  unfold reaperKillHandle
  rw [if_neg h10]
  by_cases hre : should_reestimate (is_silence_timeout e) (t.reaper_kill_count + 1) = true
  · rw [if_pos hre]
    rcases reestimation with _ | cc
    · simp [hre]
    · by_cases hcp : cc = t.complexity <;> simp [hre, hcp]
  · have hre' : should_reestimate (is_silence_timeout e) (t.reaper_kill_count + 1)
        = false := by simpa using hre
    rw [if_neg hre]
    simp [hre']

/-- C4 counterexample: a second non-silence kill meets the re-estimation
threshold, yet resurrection negotiation is ALSO invoked (it runs on every
kill below ten) — so negotiation is not restricted to the complementary
case, contrary to the claim. -/
theorem c4_negotiation_counterexample :
    (execute_and_complete c4_task (.reaperKilled "Infinite loop detected") none
        (Except.ok "different approach") none 5).reestimated = true
  ∧ (execute_and_complete c4_task (.reaperKilled "Infinite loop detected") none
        (Except.ok "different approach") none 5).negotiated = true :=
  ⟨by decide, by decide⟩

/-- C4 amended: for every Killed outcome with kill-count below 10,
re-estimation is started iff (wasSilence and count ≥ 3) or (not wasSilence
and count ≥ 2); resurrection negotiation is invoked on EVERY such kill (not
only in the complementary case) and its adjustment is written into notes;
the task is reset to Backlog with started-at cleared; the complexity changes
only to a re-estimation consensus value. -/
theorem c4_kill_policy_amended (t : Task) (reason : String)
    (parsed : Option (List String × Complexity × String))
    (negotiation : Except String String) (reestimation : Option Complexity)
    (now : Int) (hlt : t.reaper_kill_count + 1 < 10) :
    (execute_and_complete t (.reaperKilled reason) parsed negotiation reestimation
        now).negotiated = true
  ∧ (execute_and_complete t (.reaperKilled reason) parsed negotiation reestimation
        now).reestimated
      = should_reestimate (is_silence_timeout (reaperKillMarker ++ ": " ++ reason))
          (t.reaper_kill_count + 1)
  ∧ (execute_and_complete t (.reaperKilled reason) parsed negotiation reestimation
        now).task.status = TaskStatus.backlog
  ∧ (execute_and_complete t (.reaperKilled reason) parsed negotiation reestimation
        now).task.started_at = none
  ∧ (execute_and_complete t (.reaperKilled reason) parsed negotiation reestimation
        now).task.notes = negotiationNotes negotiation
  ∧ (execute_and_complete t (.reaperKilled reason) parsed negotiation reestimation
        now).task.reaper_kill_count = t.reaper_kill_count + 1
  ∧ (execute_and_complete t (.reaperKilled reason) parsed negotiation reestimation
        now).saved = true
  ∧ (should_reestimate (is_silence_timeout (reaperKillMarker ++ ": " ++ reason))
        (t.reaper_kill_count + 1) = true →
      (execute_and_complete t (.reaperKilled reason) parsed negotiation reestimation
        now).task.complexity = reestimation.getD t.complexity)
  ∧ (should_reestimate (is_silence_timeout (reaperKillMarker ++ ": " ++ reason))
        (t.reaper_kill_count + 1) = false →
      (execute_and_complete t (.reaperKilled reason) parsed negotiation reestimation
        now).task.complexity = t.complexity) := by
  simp only [execute_reaperKilled_eq]
  exact reaperKillHandle_below_ten t _ negotiation reestimation now hlt

/-- Witness for the amended C4: a silence kill at count 2 resets the task to
Backlog with negotiation invoked and no re-estimation. -/
theorem c4_kill_policy_amended_witness :
    c4_task.reaper_kill_count + 1 < 10
  ∧ (execute_and_complete c4_task
      (.reaperKilled "200 seconds of silence - agent appears hung") none
      (Except.ok "split the work") none 6).task.status = TaskStatus.backlog
  ∧ (execute_and_complete c4_task
      (.reaperKilled "200 seconds of silence - agent appears hung") none
      (Except.ok "split the work") none 6).negotiated = true := by
  have h := c4_kill_policy_amended c4_task
    "200 seconds of silence - agent appears hung" none (Except.ok "split the work")
    none 6 (by decide)
  exact ⟨by decide, h.2.2.1, h.1⟩

/-- C5 counterexample: with two ready tasks and one slot, run_sprint admits
the earlier-inserted LOW-priority task and passes over the CRITICAL one —
admission ignores priority entirely. -/
theorem c5_priority_counterexample :
    1 < (get_ready_tasks c5_board).length
  ∧ admit_tasks c5_board [] 1 = [c5_low]
  ∧ admit_by_priority_spec c5_board [] 1 = [c5_crit]
  ∧ admit_tasks c5_board [] 1 ≠ admit_by_priority_spec c5_board [] 1 :=
  ⟨by decide, by decide, by decide, by decide⟩

/-- C5 amended: the scheduler admits up to `slots` of the eligible,
not-already-running tasks in board insertion order (the admitted list is a
prefix of that filtered order and a sublist of board.tasks); priority is
never consulted. -/
theorem c5_admission_amended (board : Board) (running_ids : List String)
    (slots : Nat) :
    admit_tasks board running_ids slots
      = (board.tasks.filter (fun t =>
          ((t.status == TaskStatus.planned || t.status == TaskStatus.ready
              || t.status == TaskStatus.backlog)
            && !(((board.tasks.filter (fun u =>
                    u.status == TaskStatus.in_progress)).map Task.id).contains t.id)
            && t.dependencies.all (fun dep =>
                ((board.tasks.filter (fun u =>
                    u.status == TaskStatus.completed)).map Task.id).contains dep))
          && !(running_ids.contains t.id))).take slots
  ∧ (admit_tasks board running_ids slots).length ≤ slots
  ∧ (admit_tasks board running_ids slots).Sublist board.tasks := by
  refine ⟨?_, ?_, ?_⟩
  · unfold admit_tasks get_ready_tasks
    simp only []
    rw [List.filter_filter]
    congr 1
    congr 1
    funext a
    exact Bool.and_comm _ _
  · exact List.length_take_le _ _
  · unfold admit_tasks get_ready_tasks
    exact (List.take_sublist _ _).trans
      ((List.filter_sublist _).trans (List.filter_sublist _))

/-- C6 counterexample: a line containing the literal text [HEARTBEAT] is NOT
recognized as a heartbeat (the engine scans for [WAVERUNNER_HEARTBEAT]); with
900 s < silence < 1800 s and [HEARTBEAT] as the only and last output line,
the attempt is killed, not continued. -/
theorem c6_heartbeat_counterexample :
    strContains "[HEARTBEAT] still alive" heartbeatToken = false
  ∧ find_last_heartbeat_age ["[HEARTBEAT] still alive"] = -1
  ∧ reaper_monitor_task 1000 1000 ["[HEARTBEAT] still alive"] none ""
      = ("KILL", "No heartbeat found and >15 minutes silence (agent appears hung)") :=
  ⟨by decide, by decide, by decide⟩

/-- C6 amended: a line containing the literal token [WAVERUNNER_HEARTBEAT]
is recognized; when it is the last output line, silence is between 900 s and
1800 s, and no infinite loop is detected, the attempt is continued. -/
theorem c6_heartbeat_amended (pre : List String) (lastLine : String)
    (silence elapsed : Int) (llm : String)
    (hhb : strContains lastLine heartbeatToken = true)
    (h900 : 900 < silence) (h1800 : silence < 1800)
    (hloop : detect_infinite_loop (pre ++ [lastLine]) = false) :
    reaper_monitor_task silence elapsed (pre ++ [lastLine]) none llm
      = ("CONTINUE", "") := by
  have hne : pre ++ [lastLine] ≠ [] := by simp
  have hage : find_last_heartbeat_age (pre ++ [lastLine]) = 0 := by
    cases pre with
    | nil =>
        show hbSearch [lastLine].reverse = 0
        simp [hbSearch, hhb]
    | cons p ps =>
        show hbSearch ((p :: ps) ++ [lastLine]).reverse = 0
        rw [show ((p :: ps) ++ [lastLine]).reverse = lastLine :: (p :: ps).reverse by simp]
        simp [hbSearch, hhb]
  unfold reaper_monitor_task
  rw [if_neg hne]
  by_cases h60 : elapsed < 60 ∧ (pre ++ [lastLine]).length < 3
  · rw [if_pos h60]
  · rw [if_neg h60,
      if_neg (show ¬detect_infinite_loop (pre ++ [lastLine]) = true by simp [hloop])]
    unfold reaperProcessStep reaperHeartbeatStep
    rw [if_pos ⟨hne, h900⟩]
    simp [hage, h1800]

/-- Witness for the amended C6: a trailing [WAVERUNNER_HEARTBEAT] line with
1000 s of silence is continued. -/
theorem c6_heartbeat_amended_witness :
    strContains "[WAVERUNNER_HEARTBEAT]" heartbeatToken = true
  ∧ reaper_monitor_task 1000 500 (["working on step 3"] ++ ["[WAVERUNNER_HEARTBEAT]"])
      none "" = ("CONTINUE", "") :=
  ⟨by decide,
    c6_heartbeat_amended ["working on step 3"] "[WAVERUNNER_HEARTBEAT]" 1000 500 ""
      (by decide) (by decide) (by decide) (by decide)⟩

/-- Every kill handling increments the count by exactly one and appends
exactly one record. -/
theorem reaperKillHandle_kill_fields (t : Task) (e : String)
    (negotiation : Except String String) (reestimation : Option Complexity)
    (now : Int) :
    (reaperKillHandle t e negotiation reestimation now).task.reaper_kill_count
        = t.reaper_kill_count + 1
  ∧ (reaperKillHandle t e negotiation reestimation now).task.resurrection_history
        = t.resurrection_history ++ [corpseOf t e (t.reaper_kill_count + 1) now] := by
  unfold reaperKillHandle
  by_cases h10 : 10 ≤ t.reaper_kill_count + 1
  · rw [if_pos h10]
    exact ⟨rfl, rfl⟩
  · rw [if_neg h10]
    by_cases hre : should_reestimate (is_silence_timeout e) (t.reaper_kill_count + 1) = true
    · rw [if_pos hre]
      rcases reestimation with _ | cc
      · exact ⟨rfl, rfl⟩
      · by_cases hcp : cc = t.complexity <;> simp [hcp]
    · rw [if_neg hre]
      exact ⟨rfl, rfl⟩

/-- No engine operation decreases the kill count or removes resurrection
records, and each preserves the count-equals-history-length invariant. -/
theorem applyOp_kill_fields (t : Task) (op : TaskOp) :
    t.reaper_kill_count ≤ (applyOp t op).reaper_kill_count
  ∧ (∃ s, (applyOp t op).resurrection_history = t.resurrection_history ++ s)
  ∧ (t.reaper_kill_count = t.resurrection_history.length →
      (applyOp t op).reaper_kill_count = (applyOp t op).resurrection_history.length) := by
  cases op with
  | startOp now =>
      exact ⟨le_refl _, ⟨[], by simp [applyOp, Task.start]⟩,
        fun h => by simpa [applyOp, Task.start] using h⟩
  | blockOp reason =>
      exact ⟨le_refl _, ⟨[], by simp [applyOp, Task.block]⟩,
        fun h => by simpa [applyOp, Task.block] using h⟩
  | completeOp a c now =>
      have hc := complete_fields t a c now
      refine ⟨?_, ⟨[], ?_⟩, ?_⟩
      · exact le_of_eq hc.2.1.symm
      · simpa using hc.2.2.1
      · intro h
        show (Task.complete t a c now).reaper_kill_count
            = (Task.complete t a c now).resurrection_history.length
        rw [hc.2.1, hc.2.2.1]
        exact h
  | iterationResetOp =>
      refine ⟨?_, ⟨[], ?_⟩, ?_⟩ <;> simp only [applyOp] <;> split <;>
        simp
  | execOp run parsed neg re now =>
      simp only [applyOp]
      cases hr : providerRunResult run with
      | error e =>
          by_cases hm : strContains e reaperKillMarker = true
          · have heq : (execute_and_complete t run parsed neg re now).task
                = (reaperKillHandle t e neg re now).task := by
              unfold execute_and_complete
              rw [hr]
              simp only []
              rw [if_pos hm]
            have hk := reaperKillHandle_kill_fields t e neg re now
            rw [heq, hk.1, hk.2]
            refine ⟨by omega, ⟨[corpseOf t e (t.reaper_kill_count + 1) now], rfl⟩, ?_⟩
            intro h
            simp [h]
          · have heq : (execute_and_complete t run parsed neg re now).task = t := by
              unfold execute_and_complete
              rw [hr]
              simp only []
              rw [if_neg (by simp [hm])]
            rw [heq]
            exact ⟨le_refl _, ⟨[], by simp⟩, fun h => h⟩
      | ok o =>
          have hkc : (execute_and_complete t run parsed neg re now).task.reaper_kill_count
              = t.reaper_kill_count := by
            unfold execute_and_complete
            rw [hr]
            simp only []
            split
            · exact (complete_fields t _ _ now).2.1
            · exact (complete_fields t _ _ now).2.1
          have hrh : (execute_and_complete t run parsed neg re now).task.resurrection_history
              = t.resurrection_history := by
            unfold execute_and_complete
            rw [hr]
            simp only []
            split
            · exact (complete_fields t _ _ now).2.2.1
            · exact (complete_fields t _ _ now).2.2.1
          refine ⟨le_of_eq hkc.symm, ⟨[], by simp [hrh]⟩, ?_⟩
          intro h
          rw [hkc, hrh]
          exact h

/-- The invariant carries over whole operation sequences. -/
theorem foldl_applyOp_kill (ops : List TaskOp) (t : Task) :
    t.reaper_kill_count ≤ (List.foldl applyOp t ops).reaper_kill_count
  ∧ (t.reaper_kill_count = t.resurrection_history.length →
      (List.foldl applyOp t ops).reaper_kill_count
        = (List.foldl applyOp t ops).resurrection_history.length) := by
  induction ops generalizing t with
  | nil => exact ⟨le_refl _, fun h => h⟩
  | cons op ops ih =>
      simp only [List.foldl_cons]
      have h1 := applyOp_kill_fields t op
      have h2 := ih (applyOp t op)
      exact ⟨le_trans h1.1 h2.1, fun h => h2.2 (h1.2.2 h)⟩

/-- C7: kill-count is non-decreasing under every engine operation and over
every operation sequence, it always equals the resurrection-history length
once that invariant holds, no operation removes records, and each Reaper
kill appends exactly one record while incrementing the count by exactly
one. -/
theorem c7_kill_count_invariant (t : Task) :
    (∀ op : TaskOp,
        t.reaper_kill_count ≤ (applyOp t op).reaper_kill_count
      ∧ (∃ s, (applyOp t op).resurrection_history = t.resurrection_history ++ s)
      ∧ (t.reaper_kill_count = t.resurrection_history.length →
          (applyOp t op).reaper_kill_count
            = (applyOp t op).resurrection_history.length))
  ∧ (∀ ops : List TaskOp,
        t.reaper_kill_count ≤ (List.foldl applyOp t ops).reaper_kill_count
      ∧ (t.reaper_kill_count = t.resurrection_history.length →
          (List.foldl applyOp t ops).reaper_kill_count
            = (List.foldl applyOp t ops).resurrection_history.length))
  ∧ (∀ (reason : String) (parsed : Option (List String × Complexity × String))
        (negotiation : Except String String) (reestimation : Option Complexity)
        (now : Int),
        (execute_and_complete t (.reaperKilled reason) parsed negotiation reestimation
            now).task.reaper_kill_count = t.reaper_kill_count + 1
      ∧ (execute_and_complete t (.reaperKilled reason) parsed negotiation reestimation
            now).task.resurrection_history
          = t.resurrection_history
              ++ [corpseOf t (reaperKillMarker ++ ": " ++ reason)
                    (t.reaper_kill_count + 1) now]) := by
  refine ⟨fun op => applyOp_kill_fields t op, fun ops => foldl_applyOp_kill ops t, ?_⟩
  intro reason parsed negotiation reestimation now
  rw [execute_reaperKilled_eq]
  exact reaperKillHandle_kill_fields t _ negotiation reestimation now

/-- Witness for C7: a fresh task run through a start and a Reaper kill keeps
kill-count equal to its resurrection-history length. -/
theorem c7_kill_count_invariant_witness :
    (exTask "w7" []).reaper_kill_count = (exTask "w7" []).resurrection_history.length
  ∧ (List.foldl applyOp (exTask "w7" [])
        [TaskOp.startOp 1,
         TaskOp.execOp (.reaperKilled "loop") none (Except.ok "adjust") none 2]).reaper_kill_count
      = (List.foldl applyOp (exTask "w7" [])
          [TaskOp.startOp 1,
           TaskOp.execOp (.reaperKilled "loop") none (Except.ok "adjust") none 2]).resurrection_history.length :=
  ⟨rfl,
    ((c7_kill_count_invariant (exTask "w7" [])).2.1
      [TaskOp.startOp 1,
       TaskOp.execOp (.reaperKilled "loop") none (Except.ok "adjust") none 2]).2 rfl⟩

theorem reset_length (tasks : List Task) :
    (reset_tasks_for_new_sprint tasks).length = tasks.length := by
  simp [reset_tasks_for_new_sprint]

/-- C8 counterexample: the iteration reset moves an in-progress task to
Backlog but does NOT clear its started-at (it stays `some 5`), contrary to
the claim that started-at is cleared. -/
theorem c8_reset_counterexample :
    reset_tasks_for_new_sprint [c8_task]
      = [{ c8_task with status := TaskStatus.backlog }]
  ∧ ({ c8_task with status := TaskStatus.backlog } : Task).started_at = some 5 :=
  ⟨by decide, by decide⟩

/-- C8 amended: when the critic rejects an iteration, every non-terminal
task has its status set to Backlog with every other field — including
started-at — unchanged, and Completed and Skipped tasks are left entirely
unchanged. -/
theorem c8_reset_amended (tasks : List Task) (i : Nat) (hi : i < tasks.length) :
    (reset_tasks_for_new_sprint tasks).length = tasks.length
  ∧ ((tasks.get ⟨i, hi⟩).status ≠ TaskStatus.completed
      ∧ (tasks.get ⟨i, hi⟩).status ≠ TaskStatus.skipped →
      (reset_tasks_for_new_sprint tasks).get ⟨i, by rw [reset_length]; exact hi⟩
        = { tasks.get ⟨i, hi⟩ with status := TaskStatus.backlog })
  ∧ ((tasks.get ⟨i, hi⟩).status = TaskStatus.completed
      ∨ (tasks.get ⟨i, hi⟩).status = TaskStatus.skipped →
      (reset_tasks_for_new_sprint tasks).get ⟨i, by rw [reset_length]; exact hi⟩
        = tasks.get ⟨i, hi⟩) := by
  refine ⟨reset_length tasks, ?_, ?_⟩
  · intro h
    unfold reset_tasks_for_new_sprint
    rw [List.get_map]
    rw [if_pos h]
  · intro h
    unfold reset_tasks_for_new_sprint
    rw [List.get_map]
    have hng : ¬((tasks.get ⟨i, hi⟩).status ≠ TaskStatus.completed
        ∧ (tasks.get ⟨i, hi⟩).status ≠ TaskStatus.skipped) := by
      rcases h with h1 | h1
      · exact fun hc => hc.1 h1
      · exact fun hc => hc.2 h1
    rw [if_neg hng]

/-- Witness for the amended C8 on a one-task list. -/
theorem c8_reset_amended_witness :
    (c8_task.status ≠ TaskStatus.completed ∧ c8_task.status ≠ TaskStatus.skipped)
  ∧ (reset_tasks_for_new_sprint [c8_task]).get ⟨0, by decide⟩
      = { c8_task with status := TaskStatus.backlog } := by
  constructor
  · exact ⟨by decide, by decide⟩
  · exact (c8_reset_amended [c8_task] 0 (by decide)).2.1 ⟨by decide, by decide⟩

/-- C9: Board.from_dict never reads the legacy validate_cmd key (nor a
validate_steps key): a legacy document, a fresh document and a bare document
all load to the very same board, so the value X is dropped rather than read
as a single-element validate_steps list. -/
theorem c9_validate_cmd_dropped :
    Board.from_dict c9_legacy_doc 0 = Board.from_dict c9_base_doc 0
  ∧ Board.from_dict c9_fresh_doc 0 = Board.from_dict c9_base_doc 0
  ∧ (∀ (d : BoardDoc) (x : String) (now : Int),
        Board.from_dict { d with validate_cmd := some x } now = Board.from_dict d now)
  ∧ (∀ (d : BoardDoc) (xs : List String) (now : Int),
        Board.from_dict { d with validate_steps := some xs } now
          = Board.from_dict d now) :=
  ⟨rfl, rfl, fun _ _ _ => rfl, fun _ _ _ => rfl⟩

/-- C10: Task.complete with a None or empty artifacts argument leaves the
artifacts field unchanged, with actual_complexity None leaves
actual_complexity unchanged; consequently an Implementation task whose
completion metadata fails to parse reaches Completed with actual_complexity
still as before (unset if it was unset) and its prior artifacts intact. -/
theorem c10_complete_frame (t : Task) (c : Option Complexity) (now : Int) :
    (Task.complete t none c now).artifacts = t.artifacts
  ∧ (Task.complete t (some []) c now).artifacts = t.artifacts
  ∧ (∀ a : Option (List String),
      (Task.complete t a none now).actual_complexity = t.actual_complexity)
  ∧ (t.task_type = TaskType.implementation →
      ∀ (output : String) (negotiation : Except String String)
        (reestimation : Option Complexity),
        (execute_and_complete t (.exited 0 output) none negotiation reestimation
            now).task.status = TaskStatus.completed
      ∧ (execute_and_complete t (.exited 0 output) none negotiation reestimation
            now).task.actual_complexity = t.actual_complexity
      ∧ (execute_and_complete t (.exited 0 output) none negotiation reestimation
            now).task.artifacts = t.artifacts) := by
  have hart : ∀ (c' : Option Complexity),
      (Task.complete t (some []) c' now).artifacts = t.artifacts := by
    intro c'
    unfold Task.complete
    rcases c' with _ | cc <;> rcases h : t.started_at with _ | s <;> simp [h]
  have hart_none : (Task.complete t none c now).artifacts = t.artifacts := by
    unfold Task.complete
    rcases c with _ | cc <;> rcases h : t.started_at with _ | s <;> simp [h]
  have hac : ∀ (a : Option (List String)),
      (Task.complete t a none now).actual_complexity = t.actual_complexity := by
    intro a
    unfold Task.complete
    rcases a with _ | (_ | ⟨x, xs⟩) <;> rcases h : t.started_at with _ | s <;> simp [h]
  refine ⟨hart_none, hart c, hac, ?_⟩
  intro himpl output negotiation reestimation
  have hok : providerRunResult (RunResult.exited 0 output) = Except.ok output := rfl
  have hmd : taskMetadata (decide (t.task_type = TaskType.spike)) none output
      = ([], none, "Completed (could not parse completion metadata)") := by
    simp [taskMetadata, himpl]
  unfold execute_and_complete
  rw [hok]
  simp only []
  rw [hmd]
  simp only []
  rw [if_pos (show ("Completed (could not parse completion metadata)" : String) ≠ ""
    from by decide)]
  exact ⟨(complete_fields t _ _ now).1, hac (some []), hart none⟩

/-- Witness for C10: a concrete Implementation task with prior artifacts and
unparseable output completes with artifacts intact and actual-complexity
still unset. -/
theorem c10_complete_frame_witness :
    c10_task.task_type = TaskType.implementation
  ∧ (execute_and_complete c10_task (.exited 0 "no yaml here") none (Except.ok "x")
      none 9).task.status = TaskStatus.completed
  ∧ (execute_and_complete c10_task (.exited 0 "no yaml here") none (Except.ok "x")
      none 9).task.artifacts = c10_task.artifacts
  ∧ (execute_and_complete c10_task (.exited 0 "no yaml here") none (Except.ok "x")
      none 9).task.actual_complexity = none := by
  have h := (c10_complete_frame c10_task none 9).2.2.2 rfl "no yaml here"
    (Except.ok "x") none
  exact ⟨rfl, h.1, h.2.2, h.2.1⟩

end Waverunner
